import Mathlib

/-!
Verification development for the faucet auto-clicker repository
(`core.py`, `main.py`, `ec.py`, `settings.py`).

The stateful browser-driving code is shallowly embedded: the DOM/driver
responses that a call can observe are packaged into small "environment"
structures, log emission is modelled as an explicit list of `(level, message)`
records, and every Python function under scrutiny becomes a total Lean
function over those environments, mirroring the source's control flow
branch by branch.
-/

set_option autoImplicit false

namespace Faucet

/-! ## Logging model

Log emission in the source goes through `logger.log(level, msg, ...)` /
`logger.error(...)` etc.  We record each emitted record as a level together
with an identifier of the message template used at the call site. -/

/-- Identifiers for the log-message templates of the call sites we model. -/
inductive LogMsg where
  /-- `_get_elements`: 'None of the "%s" elements were found ...' (TimeoutException handler). -/
  | waitTimeout
  /-- `_get_elements`: 'Reference to the DOM element ... was lost ...' (StaleElementReferenceException handler). -/
  | waitStale
  /-- `str2num`: 'String "%s" is not suitable for conversion to %s.' -/
  | convError
  /-- `_active_bonus.get_active_bonus_key`: 'Key of the detected active bonus "%s" was not identified.' -/
  | unidentifiedKey
  /-- `_state_checkbox`: '%s %schecked.' success message. -/
  | checkboxSuccess
  /-- `_active_bonus`: '%s activated (%s RP spent).' success message. -/
  | bonusActivated
  /-- `free_play_countdown`: 'Reference to the countdown timer section element was lost ...'. -/
  | countdownStale
  /-- `free_play_countdown`: 'Countdown timer has less than two sections.'. -/
  | countdownTooFew
  deriving DecidableEq, Repr

/-- One emitted log record: severity level and message template. -/
structure LogRec where
  level : Nat
  msg : LogMsg
  deriving DecidableEq, Repr

/-- `FreeBitcoinFaucet.__VALID_LOG_LEVELS = tuple(range(0, 60, 10))`. -/
def validLogLevels : List Nat := [0, 10, 20, 30, 40, 50]

/-! ## Python string helpers

Faithful executable models of the Python string operations the source uses
(`str.strip()`, `str.lstrip(chars)`, `str.split('.')`, `str.isdigit()`,
`int(...)` on decimal literals). -/

/-- The ASCII whitespace characters stripped by Python's `str.strip()`. -/
def pyIsSpace (c : Char) : Bool :=
  c = ' ' || c = '\t' || c = '\n' || c = '\r' || c = '\x0b' || c = '\x0c'

/-- Python `str.strip()` restricted to ASCII whitespace. -/
def pyStrip (s : String) : String :=
  ⟨((s.data.dropWhile pyIsSpace).reverse.dropWhile pyIsSpace).reverse⟩

/-- Python `str.lstrip(chars)`: drop leading characters belonging to `cs`. -/
def pyLstripChars (s : String) (cs : List Char) : String :=
  ⟨s.data.dropWhile (fun c => cs.contains c)⟩

/-- Decimal digit value of an ASCII digit character. -/
def digitVal (c : Char) : Nat := c.toNat - 48

/-- Value of a list of decimal digit characters. -/
def decToNat (l : List Char) : Nat :=
  l.foldl (fun a c => a * 10 + digitVal c) 0

/-- Digit-run parser for Python `int(...)`: after the first digit, single
underscores are permitted between digits (PEP 515); anything else fails. -/
def pyDigitsAux : Nat → List Char → Option Nat
  | acc, [] => some acc
  | acc, '_' :: rest =>
    match rest with
    | [] => none
    | d :: rest2 => if d.isDigit then pyDigitsAux (acc * 10 + digitVal d) rest2 else none
  | acc, c :: rest => if c.isDigit then pyDigitsAux (acc * 10 + digitVal c) rest else none

/-- Model of Python `int(string)` on ASCII input: surrounding whitespace is
ignored, an optional sign is followed by a digit run (with optional single
underscores between digits); everything else raises `ValueError`, modelled
as `none`. -/
def pyStrToInt (s : String) : Option Int :=
  match (pyStrip s).data with
  | [] => none
  | '+' :: rest =>
    match rest with
    | [] => none
    | c :: _ => if c.isDigit then (pyDigitsAux 0 rest).map Int.ofNat else none
  | '-' :: rest =>
    match rest with
    | [] => none
    | c :: _ => if c.isDigit then (pyDigitsAux 0 rest).map (fun n => -(n : Int)) else none
  | c :: rest => if c.isDigit then (pyDigitsAux 0 (c :: rest)).map Int.ofNat else none

/-- Python `str.isdigit()` restricted to ASCII: nonempty and all digits. -/
def isPyDigits (s : String) : Bool := !s.isEmpty && s.data.all Char.isDigit

/-- Helper for `pySplitDot`: accumulates the current chunk (reversed). -/
def splitDotAux : List Char → List Char → List String
  | [], cur => [⟨cur.reverse⟩]
  | c :: rest, cur =>
    if c = '.' then ⟨cur.reverse⟩ :: splitDotAux rest [] else splitDotAux rest (c :: cur)

/-- Python `str.split('.')`: splits at every dot, keeping empty chunks
(so `"".split('.') = [""]`). -/
def pySplitDot (s : String) : List String := splitDotAux s.data []

/-- Lexicographic strict order on character lists by code point, as Python
compares strings. -/
def charListLt : List Char → List Char → Bool
  | [], [] => false
  | [], _ :: _ => true
  | _ :: _, [] => false
  | a :: as, b :: bs =>
    if a.toNat < b.toNat then true
    else if a.toNat = b.toNat then charListLt as bs
    else false

/-- Python `a < b` on strings. -/
def pyStrLt (a b : String) : Bool := charListLt a.data b.data

/-- Python `a <= b` on strings (total order: `a <= b` iff not `b < a`). -/
def pyStrLe (a b : String) : Bool := !pyStrLt b a

/-! ## `str2num` (core.py lines 57-73)

`str2num(string, obj)` returns `obj(string)` when the stripped string is
nonempty and the conversion succeeds, and `obj()` (the type's zero) otherwise,
logging an error exactly when a nonempty string fails to convert.  The target
type (`int`, `Decimal` or `float`) is abstracted as a `NumModel`: its zero
value and its partial conversion function. -/

/-- A numeric target type for `str2num`: the zero value `obj()` and the
conversion `obj(string)`, `none` meaning `ValueError`/`InvalidOperation`. -/
structure NumModel (α : Type) where
  zero : α
  parse : String → Option α

/-- `str2num` (core.py 57-73): returns the converted number, or the zero value
when the string strips to empty or the conversion fails (logging an error at
level 40 in the latter case only). -/
def str2num {α : Type} (m : NumModel α) (s : String) : α × List LogRec :=
  if pyStrip s = "" then (m.zero, [])
  else
    match m.parse s with
    | some v => (v, [])
    | none => (m.zero, [⟨40, .convError⟩])

/-- The `int` instantiation of `str2num`'s target type. -/
def pyIntModel : NumModel Int where
  zero := 0
  parse := pyStrToInt

/-! ## `BrowserExecFileOrLink.version_info` (core.py lines 267-274)

```
length = len(self.__version_info._fields)          # 4
ver = [int(v) if v.isdigit() else 0 for v in self.version.split('.')[:length]]
return self.__version_info(*(ver + [0] * (length - len(ver))))
```
-/

/-- The `namedtuple('version_info', 'major minor release build')`. -/
structure VersionInfo where
  major : Nat
  minor : Nat
  release : Nat
  build : Nat
  deriving DecidableEq, Repr

/-- `int(v) if v.isdigit() else 0` for one dot-separated field. -/
def fieldToNat (s : String) : Nat :=
  if isPyDigits s then decToNat s.data else 0

/-- `version_info` computed from the already-split field list. -/
def versionInfoOfFields (fields : List String) : VersionInfo :=
  let ver := (fields.take 4).map fieldToNat
  ⟨ver.getD 0 0, ver.getD 1 0, ver.getD 2 0, ver.getD 3 0⟩

/-- `BrowserExecFileOrLink.version_info` (core.py 267-274). -/
def version_info (s : String) : VersionInfo :=
  versionInfoOfFields (pySplitDot s)

/-! ## `FreeBitcoinFaucet._get_elements` (core.py lines 527-570)

```
try:
    elements = wait(ec(*ec_args))
    return elements if isinstance(elements, list) else [elements] if elements else []
except TimeoutException:
    logger.log(log_level, 'None of the "%s" elements were found ...', ...)
except StaleElementReferenceException:
    logger.log(log_level, 'Reference to the DOM element ... was lost ...', ...)
return []
```

The driver/wait pair is abstracted into a `WaitOutcome`: either the awaited
condition produced a value (a list of elements, a single element, or a bare
boolean, as Selenium expected conditions can), or the wait ended in one of
the two caught exceptions. -/

/-- An abstract DOM element handle. -/
structure Elem where
  ref : Nat
  deriving DecidableEq, Repr

/-- The value a satisfied Selenium expected condition can hand back. -/
inductive DriverValue where
  | elems (l : List Elem)
  | single (e : Elem)
  | boolVal (b : Bool)
  deriving DecidableEq, Repr

/-- Outcome of `wait(ec(*ec_args))`: a value, or one of the two caught
exceptions. -/
inductive WaitOutcome where
  | ok (v : DriverValue)
  | timedOut
  | stale
  deriving DecidableEq, Repr

/-- An entry of the list `_get_elements` returns: a DOM element, or the
Python boolean `True` used as a sentinel when the condition was a bare
boolean fact. -/
inductive Item where
  | elem (e : Elem)
  | sentinelTrue
  deriving DecidableEq, Repr

/-- `elements if isinstance(elements, list) else [elements] if elements else []`. -/
def normalizeWaitValue : DriverValue → List Item
  | .elems l => l.map .elem
  | .single e => [.elem e]
  | .boolVal b => if b then [.sentinelTrue] else []

/-- `FreeBitcoinFaucet._get_elements` (core.py 527-570): the returned element
list together with the log records it emits, as a function of the wait
outcome and the caller-requested `log_level`. -/
def get_elements (outcome : WaitOutcome) (logLevel : Nat) : List Item × List LogRec :=
  match outcome with
  | .ok v => (normalizeWaitValue v, [])
  | .timedOut => ([], [⟨logLevel, .waitTimeout⟩])
  | .stale => ([], [⟨logLevel, .waitStale⟩])

/-! ## `FreeBitcoinFaucet._state_checkbox` (core.py lines 744-775)

The checkbox page state a call can observe: whether the state `span` sibling
exists, its current `checked` class, whether the clickable checkbox input
itself is found, and the `checked` state that one DOM click would produce
(re-read from the same span after the click). -/

/-- Observable checkbox page state for `_state_checkbox`. -/
structure CheckboxPage where
  spanPresent : Bool
  checked : Bool
  checkboxPresent : Bool
  clickEffect : Bool → Bool

/-- Result of one `_state_checkbox` call: the returned value, whether a DOM
click was executed, the page state afterwards, and the emitted log records. -/
structure CheckboxOut where
  result : Option Bool
  clicked : Bool
  page : CheckboxPage
  logs : List LogRec

/-- `FreeBitcoinFaucet._state_checkbox` (core.py 744-775): (un)checks the
checkbox and/or returns its state; returns `none` when the state span cannot
be found. -/
def state_checkbox (p : CheckboxPage) (value : Option Bool) (lvl : Nat) : CheckboxOut :=
  if !p.spanPresent then ⟨none, false, p, [⟨40, .waitTimeout⟩]⟩
  else
    match value with
    | none => ⟨some p.checked, false, p, []⟩
    | some v =>
      if p.checked = v then ⟨some p.checked, false, p, [⟨lvl, .checkboxSuccess⟩]⟩
      else if p.checkboxPresent then
        let c2 := p.clickEffect p.checked
        ⟨some c2, true, { p with checked := c2 },
          if c2 = v then [⟨lvl, .checkboxSuccess⟩] else []⟩
      else ⟨some p.checked, false, p, [⟨40, .waitTimeout⟩]⟩

/-! ## `FreeBitcoinFaucet._active_bonus` (core.py lines 777-824)

Observable bonus-table page state: the scraped key and cost columns, the
number of redeem buttons, the `bonus_container` span (absent, or its scraped
numeric key) before and after a click, and the balance data consulted by the
affordability check. -/

/-- Observable page state for one `_active_bonus` call. -/
structure BonusPage where
  bonusKeys : List Int
  bonusCosts : List Int
  buttonsCount : Nat
  activeSpan : Option Int
  activeSpanAfterClick : Option Int
  freePlayCost : Int
  balanceRP : Int
  checkForCaptcha : Bool

/-- The nested `get_active_bonus_key`: `some 0` when no active-bonus element
exists, `some k` when the scraped key `k` appears in the scraped key table,
`none` (with an error log) when it does not.  The element wait is issued with
`log_level=10`, so its timeout only produces a debug record. -/
def getActiveBonusKey (keys : List Int) (span : Option Int) : Option Int × List LogRec :=
  match span with
  | none => (some 0, [⟨10, .waitTimeout⟩])
  | some k => if keys.contains k then (some k, []) else (none, [⟨40, .unidentifiedKey⟩])

/-- Result of one `_active_bonus` call. -/
structure ActiveBonusOut where
  result : Option Int
  clicked : Bool
  logs : List LogRec
  deriving Repr

/-- `FreeBitcoinFaucet._active_bonus` (core.py 777-824): activates a bonus by
key and/or returns the key of the active bonus; `none` when the key table is
empty or an active bonus' key is not identified, `some 0` when no bonus is
active.  The redeem click fires only from the `current == 0 and value` branch
when the cost lookup succeeds and the affordability check passes; a cost or
button `IndexError` is caught and leaves the state unread. -/
def active_bonus (p : BonusPage) (value : Int) (lvl : Nat) : ActiveBonusOut :=
  if p.bonusKeys = [] then ⟨none, false, [⟨40, .waitTimeout⟩]⟩
  else
    let pre := getActiveBonusKey p.bonusKeys p.activeSpan
    if pre.1 = some 0 ∧ value ≠ 0 then
      let idx := p.bonusKeys.indexOf value
      match p.bonusCosts[idx]? with
      | none => ⟨some 0, false, pre.2⟩
      | some cost =>
        if cost + (if p.checkForCaptcha then p.freePlayCost else 0) ≤ p.balanceRP then
          if idx < p.buttonsCount then
            let post := getActiveBonusKey p.bonusKeys p.activeSpanAfterClick
            ⟨post.1, true,
              pre.2 ++ post.2 ++ (if post.1 = some value then [⟨lvl, .bonusActivated⟩] else [])⟩
          else ⟨some 0, false, pre.2⟩
        else ⟨some 0, false, pre.2⟩
    else ⟨pre.1, false, pre.2⟩

/-! ## `FreeBitcoinFaucet.free_play_countdown` (core.py lines 1125-1144)

Observable countdown page state: whether the `time_remaining` element is
present, whether the property read of the countdown spans raises
`StaleElementReferenceException`, and otherwise the parsed numeric values of
the `span.countdown_amount` elements found (empty list = second wait timed
out). -/

/-- Observable page state for one `free_play_countdown` read. -/
structure CountdownPage where
  timerPresent : Bool
  staleDuringRead : Bool
  spanValues : List Int
  deriving DecidableEq, Repr

/-- `FreeBitcoinFaucet.free_play_countdown` (core.py 1125-1144): total seconds
of the two-part (minutes, seconds) display, or 0 on the absent / empty /
stale / too-short paths, with the log records each path emits.  The first
wait uses the default `log_level` 40; the second passes `log_level=10`. -/
def free_play_countdown (p : CountdownPage) : Int × List LogRec :=
  if !p.timerPresent then (0, [⟨40, .waitTimeout⟩])
  else if p.spanValues = [] then (0, [⟨10, .waitTimeout⟩])
  else if p.staleDuringRead then (0, [⟨40, .countdownStale⟩])
  else
    match p.spanValues with
    | m :: s :: _ => (m * 60 + s, [])
    | _ => (0, [⟨40, .countdownTooFew⟩])

/-- A sample bonus-table page: keys 50 and 100 with costs 10 and 20, two
redeem buttons, no bonus currently active, the 50-key bonus active after a
click, play cost 1, balance 100, captcha checking on. -/
def sampleBonusPage : BonusPage :=
  ⟨[50, 100], [10, 20], 2, none, some 50, 1, 100, true⟩

/-! ## `FreeBitcoinFaucet.activate_bonuses` (core.py lines 1271-1287)

```
result = {}
for k, v in bonuses.items():
    _validate_argument(k, 'bonus_key', str, self.__VALID_BONUS_KEYS)
    attr_name = f'active_bonus_{k}'
    if all(result.values()):
        setattr(self, attr_name, v)
    result[k] = getattr(self, attr_name)
return result
```

The `active_bonus_{k}` property getters/setters are abstracted into an
environment: `afterSet k v` is what the getter reads back after the setter
ran with requested key `v`, and `noSet k` is what the getter reads when
the setter was skipped.  Getter values are `Option Int` (`none` = key not
identified, `some 0` = nothing active, `some k` = active key `k`), and
Python truthiness of such a value is `truthy`. -/

/-- Python truthiness of an `active_bonus` getter value (`None` and `0` are
falsy). -/
def truthy : Option Int → Bool
  | none => false
  | some n => n != 0

/-- Abstract bonus-category environment for `activate_bonuses`. -/
structure BonusEnv where
  afterSet : String → Int → Option Int
  noSet : String → Option Int

/-- One entry of the result mapping of `activate_bonuses`, together with
whether the activation setter was invoked for its key. -/
structure BonusEntry where
  key : String
  res : Option Int
  invoked : Bool
  deriving DecidableEq, Repr

/-- The loop of `activate_bonuses`, carried out on the accumulated result
list: the setter runs only if `all(result.values())` for the results
accumulated so far, and the getter value is recorded either way. -/
def activateBonusesAux (env : BonusEnv) : List (String × Int) → List BonusEntry → List BonusEntry
  | [], acc => acc
  | (k, v) :: rest, acc =>
    let inv := acc.all (fun e => truthy e.res)
    let r := if inv then env.afterSet k v else env.noSet k
    activateBonusesAux env rest (acc ++ [⟨k, r, inv⟩])

/-- `FreeBitcoinFaucet.activate_bonuses` (core.py 1271-1287): activates
bonuses in the order they appear in the mapping; each setter runs only if
all previously recorded results are truthy. -/
def activate_bonuses (env : BonusEnv) (bonuses : List (String × Int)) : List BonusEntry :=
  activateBonusesAux env bonuses []

/-- Recursion-friendly form of the `activate_bonuses` loop: the flag carries
`all(result.values())` for the entries already emitted. -/
def activateBonusesGo (env : BonusEnv) : Bool → List (String × Int) → List BonusEntry
  | _, [] => []
  | ok, (k, v) :: rest =>
    let r := if ok then env.afterSet k v else env.noSet k
    ⟨k, r, ok⟩ :: activateBonusesGo env (ok && truthy r) rest

/-- The environment of the C2 scenario: every attempted activation fails
(the getter reads back `0`, nothing active) and no category has a
pre-existing active bonus. -/
def allFailEnv : BonusEnv :=
  ⟨fun _ _ => some 0, fun _ => some 0⟩

/-- The C2 request: bonuses for the three valid keys in insertion order. -/
def demoBonusRequest : List (String × Int) :=
  [("btc", 500), ("lt", 10), ("wof", 5)]

/-! ## Driver updaters (core.py lines 335-420)

`FirefoxDriverExecFileOrLink.update` fetches the latest release tag and
compares it against the installed version with the **string** operator
`ver <= self.version`; `ChromeDriverExecFileOrLink.update` fetches the
latest release body and compares with string **equality**
`ver == self.version`.  The network/filesystem collaborators are abstracted
into an environment. -/

/-- Environment observed by one `update` call: the release-index URL, the
HTTP status of the latest-release request, the raw latest-release string
(the tag segment for Firefox, the response body for Chrome), whether the
download-and-unpack step succeeds, the permission string `perms('755')`
returns, and whether removing Chrome's unpacked license file succeeds. -/
structure DriverUpdateEnv where
  url : String
  responseOk : Bool
  latestRaw : String
  downloadUnpackOk : Bool
  permsResult : String
  licenseRemoveOk : Bool

/-- Result of an `update` call: the returned boolean and whether the
download+unpack+permission-fix was performed. -/
structure UpdResult where
  success : Bool
  attempted : Bool
  deriving DecidableEq, Repr

/-- `FirefoxDriverExecFileOrLink.update` (core.py 350-378): no update is
performed when the latest tag (after `lstrip('v.')`) compares `<=` the
installed version as a string. -/
def firefoxUpdate (env : DriverUpdateEnv) (installed : String) : UpdResult :=
  if env.url = "" then ⟨false, false⟩
  else if !env.responseOk then ⟨false, false⟩
  else
    let ver := pyLstripChars env.latestRaw ['v', '.']
    if pyStrLe ver installed then ⟨true, false⟩
    else if !env.downloadUnpackOk then ⟨false, true⟩
    else if pyStrLt env.permsResult "755" then ⟨false, true⟩
    else ⟨true, true⟩

/-- `ChromeDriverExecFileOrLink.update` (core.py 381-420): no update is
performed exactly when the latest release string equals the installed
version string; the unpacked license file's removal sits in a
`try/finally` with no handler, so its failure propagates (`none`). -/
def chromeUpdate (env : DriverUpdateEnv) (installed : String) : Option UpdResult :=
  if env.url = "" then some ⟨false, false⟩
  else if !env.responseOk then some ⟨false, false⟩
  else
    let ver := pyLstripChars env.latestRaw ['v', '.']
    if ver = installed then some ⟨true, false⟩
    else if !env.downloadUnpackOk then some ⟨false, true⟩
    else if !env.licenseRemoveOk then none
    else if pyStrLt env.permsResult "755" then some ⟨false, true⟩
    else some ⟨true, true⟩

/-- Numeric (componentwise lexicographic) order on 4-field version tuples. -/
def versionLt (a b : VersionInfo) : Bool :=
  if a.major ≠ b.major then a.major < b.major
  else if a.minor ≠ b.minor then a.minor < b.minor
  else if a.release ≠ b.release then a.release < b.release
  else a.build < b.build

/-- Spec-side notion used by the claim: the installed version is *outdated*
relative to the latest published one when its numeric version tuple is
strictly below the latest's. -/
def specOutdated (installed latest : String) : Bool :=
  versionLt (version_info installed) (version_info latest)

/-- Environment for the C9 counterexample: everything succeeds and the
latest published Chrome driver release is `1.0.0.0`. -/
def downgradeEnv : DriverUpdateEnv :=
  ⟨"u", true, "1.0.0.0", true, "755", true⟩

/-! ## `sign_in` / `sign_out` (core.py lines 1329-1388)

The credential fields `__password` and `__totp_secret`.  `sign_in` assigns
them the supplied values only after the post-submit authenticated marker is
confirmed; `sign_out` resets them to empty strings only after the post-click
unauthenticated marker is confirmed.  The form/DOM responses each call can
observe are abstracted into environments. -/

/-- The private credential fields of `FreeBitcoinFaucet`. -/
structure Creds where
  password : String
  totpSecret : String
  deriving DecidableEq, Repr

/-- Observable outcomes of the steps of one `sign_in` call: whether the
login form becomes current, whether each field read-back matches what was
typed, whether the login button is found, and whether the post-submit
authenticated marker is present. -/
structure SignInEnv where
  formOk : Bool
  addrFillOk : Bool
  pwFillOk : Bool
  totpFillOk : Bool
  loginBtnFound : Bool
  postClickAuth : Bool
  deriving DecidableEq, Repr

/-- `FreeBitcoinFaucet.sign_in` (core.py 1329-1371): returns success and the
credential state afterwards. -/
def sign_in (st : Creds) (env : SignInEnv) (address password totpSecret : String) :
    Bool × Creds :=
  if !env.formOk then (false, st)
  else if address = "" then (false, st)
  else if !env.addrFillOk then (false, st)
  else if password = "" then (false, st)
  else if !env.pwFillOk then (false, st)
  else if totpSecret ≠ "" && !env.totpFillOk then (false, st)
  else if !env.loginBtnFound then (false, st)
  else if env.postClickAuth then (true, ⟨password, totpSecret⟩)
  else (false, st)

/-- Observable outcomes of one `sign_out` call: whether the authenticated
marker (logout link) is found, and whether after the click the
unauthenticated marker (login button) is present. -/
structure SignOutEnv where
  authdFound : Bool
  postClickUnauth : Bool
  deriving DecidableEq, Repr

/-- `FreeBitcoinFaucet.sign_out` (core.py 1373-1388): returns success and the
credential state afterwards. -/
def sign_out (st : Creds) (env : SignOutEnv) : Bool × Creds :=
  if !env.authdFound then (false, st)
  else if env.postClickUnauth then (true, ⟨"", ""⟩)
  else (false, st)

/-- The mutable non-DOM instance state of `FreeBitcoinFaucet`: credentials
plus the only other fields any method assigns (`__check_for_captcha`,
`__timeout_elem_wait`, `__timeout_page_load`). -/
structure FaucetState where
  creds : Creds
  checkForCaptcha : Bool
  timeoutElemWait : Int
  timeoutPageLoad : Int
  deriving DecidableEq, Repr

/-- The `check_for_captcha` property setter (core.py 954-960). -/
def setCheckForCaptcha (fs : FaucetState) (v : Bool) : FaucetState :=
  { fs with checkForCaptcha := v }

/-- The `timeout_elem_wait` property setter (core.py 937-945). -/
def setTimeoutElemWait (fs : FaucetState) (v : Int) : FaucetState :=
  { fs with timeoutElemWait := v }

/-- The `timeout_page_load` property setter (core.py 919-927). -/
def setTimeoutPageLoad (fs : FaucetState) (v : Int) : FaucetState :=
  { fs with timeoutPageLoad := v }

/-! ## `scenario` (main.py lines 38-212)

The scenario driver, embedded as a function of an environment of step
outcomes.  The free-play inner attempt loop contains no `return` and no
session teardown, so per-round it is abstracted into the single outcome
`roundPlayed num` (whether round `num` ended with `is_played` true); both
unbounded loops (`itertools.count`) are given fuel, `none` meaning the run
has not terminated within the fuel. -/

/-- Outcomes the scenario can observe, in program order. -/
structure ScenEnv where
  browserFileOk : Bool
  driverTypeOk : Bool
  driverFileOk : Bool
  driverUpdateOk : Bool
  faucetOk : Bool
  quickStart : Bool
  qsAvailable : Bool
  qsAuthenticated : Bool
  openOk : Nat → Bool
  onUnavailableAttempts : Nat
  signInEnv : SignInEnv
  address : String
  passwordArg : String
  totpArg : String
  freePlayNum : Nat
  roundPlayed : Nat → Bool
  signOutEnv : SignOutEnv

/-- The open-site retry loop (main.py 117-129): attempt numbers count from 1
and the loop gives up after attempt `maxAtt` (0 = unbounded). -/
def openLoopAux (openOk : Nat → Bool) (maxAtt : Nat) : Nat → Nat → Option Bool
  | 0, _ => none
  | Nat.succ fuel, att =>
    if openOk att then some true
    else if att = maxAtt then some false
    else openLoopAux openOk maxAtt fuel (att + 1)

/-- The free-play outer loop (main.py 160-209): rounds count from 1; the
loop exits when a round is not played or the configured round count
(0 = unbounded) is reached. -/
def freePlayLoopAux (played : Nat → Bool) (freePlayNum : Nat) : Nat → Nat → Option Unit
  | 0, _ => none
  | Nat.succ fuel, num =>
    if !played num then some ()
    else if num = freePlayNum then some ()
    else freePlayLoopAux played freePlayNum fuel (num + 1)

/-- Result of one terminated `scenario` run: the exit status, whether
`faucet.quit()` ran on the taken path, whether the path reached the terminal
sign-out state, and the sign-out result there. -/
structure ScenResult where
  exit : Nat
  quitCalled : Bool
  reachedTerminal : Bool
  signOutOk : Bool
  deriving DecidableEq, Repr

/-- The terminal lines of `scenario` (main.py 210-212):
`is_authenticated = not faucet.sign_out(); faucet.quit();
return int(is_authenticated)`. -/
def scenarioTerminal (env : ScenEnv) : ScenResult :=
  let so := (sign_out ⟨"", ""⟩ env.signOutEnv).1
  ⟨if so then 0 else 1, true, true, so⟩

/-- The free-play phase followed by the terminal lines. -/
def scenarioMain (fuel : Nat) (env : ScenEnv) : Option ScenResult :=
  match freePlayLoopAux env.roundPlayed env.freePlayNum fuel 1 with
  | none => none
  | some _ => some (scenarioTerminal env)

/-- The post-construction part of `scenario` (main.py 103-212): the quick
start availability/authentication check, or the open-retry loop followed by
`sign_in`; failures quit the session and return 1. -/
def scenarioAfterSetup (fuel : Nat) (env : ScenEnv) : Option ScenResult :=
  if env.quickStart then
    if env.qsAvailable && env.qsAuthenticated then scenarioMain fuel env
    else some ⟨1, true, false, false⟩
  else
    match openLoopAux env.openOk env.onUnavailableAttempts fuel 1 with
    | none => none
    | some false => some ⟨1, true, false, false⟩
    | some true =>
      if (sign_in ⟨"", ""⟩ env.signInEnv env.address env.passwordArg env.totpArg).1 then
        scenarioMain fuel env
      else some ⟨1, true, false, false⟩

/-- `scenario` (main.py 38-212): the setup steps (browser file, driver
class, driver file, driver update, faucet construction) each return 1
without a session to quit; afterwards `scenarioAfterSetup` runs. -/
def scenario (fuel : Nat) (env : ScenEnv) : Option ScenResult :=
  if !env.browserFileOk then some ⟨1, false, false, false⟩
  else if !env.driverTypeOk then some ⟨1, false, false, false⟩
  else if !env.driverFileOk then some ⟨1, false, false, false⟩
  else if !env.driverUpdateOk then some ⟨1, false, false, false⟩
  else if !env.faucetOk then some ⟨1, false, false, false⟩
  else scenarioAfterSetup fuel env

/-- A fully successful quick-start scenario environment with one free play
round. -/
def happyScenEnv : ScenEnv where
  browserFileOk := true
  driverTypeOk := true
  driverFileOk := true
  driverUpdateOk := true
  faucetOk := true
  quickStart := true
  qsAvailable := true
  qsAuthenticated := true
  openOk := fun _ => true
  onUnavailableAttempts := 1
  signInEnv := ⟨true, true, true, true, true, true⟩
  address := "a"
  passwordArg := "p"
  totpArg := ""
  freePlayNum := 1
  roundPlayed := fun _ => true
  signOutEnv := ⟨true, true⟩

end Faucet

namespace Faucet

/-! ## Theorems -/

/-- C7: for every target-type model and string, `str2num` returns the parsed
number when the string converts, and the type's zero value without raising
when the string strips to empty (no log) or is malformed for that type (one
error log). -/
theorem str2num_spec {α : Type} (m : NumModel α) (s : String) :
    (pyStrip s = "" → str2num m s = (m.zero, [])) ∧
    (pyStrip s ≠ "" → ∀ v, m.parse s = some v → str2num m s = (v, [])) ∧
    (pyStrip s ≠ "" → m.parse s = none → str2num m s = (m.zero, [⟨40, .convError⟩])) := by
  refine ⟨fun h => ?_, fun h v hv => ?_, fun h hn => ?_⟩
  · simp [str2num, h]
  · simp [str2num, h, hv]
  · simp [str2num, h, hn]

/-- Witness for C7: the malformed string "abc" is nonempty after stripping,
fails integer conversion, and yields zero with a single error log; the
string "42" converts to 42 with no log; whitespace-only yields zero. -/
theorem str2num_spec_witness :
    str2num pyIntModel "abc" = (0, [⟨40, .convError⟩]) ∧
    str2num pyIntModel "42" = ((42 : Int), []) ∧
    str2num pyIntModel " " = (0, []) := by
  refine ⟨?_, ?_, ?_⟩
  · exact (str2num_spec pyIntModel "abc").2.2 (by decide) (by decide)
  · exact (str2num_spec pyIntModel "42").2.1 (by decide) 42 (by decide)
  · exact (str2num_spec pyIntModel " ").1 (by decide)

/-- C8: `version_info` always yields a 4-field tuple of natural numbers
determined componentwise by the first four dot-separated fields ("114.0.5735.90"
parses to (114, 0, 5735, 90)); missing trailing fields pad with 0 (the default
field "" coerces to 0), non-digit fields coerce to 0, and fields beyond the
fourth are ignored. -/
theorem version_info_spec :
    version_info "114.0.5735.90" = ⟨114, 0, 5735, 90⟩ ∧
    (∀ fields : List String,
      versionInfoOfFields fields =
        ⟨fieldToNat (fields.getD 0 ""), fieldToNat (fields.getD 1 ""),
         fieldToNat (fields.getD 2 ""), fieldToNat (fields.getD 3 "")⟩) ∧
    (∀ f : String, isPyDigits f = false → fieldToNat f = 0) ∧
    (∀ fields : List String, versionInfoOfFields (fields.take 4) = versionInfoOfFields fields) := by
  refine ⟨by decide, fun fields => ?_, fun f hf => ?_, fun fields => ?_⟩
  · rcases fields with _ | ⟨a, _ | ⟨b, _ | ⟨c, _ | ⟨d, rest⟩⟩⟩⟩ <;> rfl
  · simp [fieldToNat, hf]
  · rcases fields with _ | ⟨a, _ | ⟨b, _ | ⟨c, _ | ⟨d, rest⟩⟩⟩⟩ <;> rfl

/-- Witness for C8: the non-digit field "x" coerces to 0. -/
theorem version_info_spec_witness :
    isPyDigits "x" = false ∧ fieldToNat "x" = 0 :=
  ⟨by decide, version_info_spec.2.2.1 "x" (by decide)⟩

/-- C1: for every call to `_get_elements`, a timeout or a stale reference is
caught, yields the empty list, and emits exactly one log record at the
caller-requested severity; when the condition holds the result is always a
list — a list value is returned as is, a single element is wrapped as a
one-element list, and a bare boolean `True` yields the one-element sentinel
list — with no log emitted. -/
theorem get_elements_spec (lvl : Nat) :
    ((get_elements .timedOut lvl).1 = [] ∧
      (get_elements .timedOut lvl).2 = [⟨lvl, .waitTimeout⟩]) ∧
    ((get_elements .stale lvl).1 = [] ∧
      (get_elements .stale lvl).2 = [⟨lvl, .waitStale⟩]) ∧
    (∀ l : List Elem, get_elements (.ok (.elems l)) lvl = (l.map .elem, [])) ∧
    (∀ e : Elem, get_elements (.ok (.single e)) lvl = ([.elem e], [])) ∧
    (get_elements (.ok (.boolVal true)) lvl = ([.sentinelTrue], [])) ∧
    (get_elements (.ok (.boolVal false)) lvl = ([], [])) ∧
    (∀ v : DriverValue, (get_elements (.ok v) lvl).2 = []) := by
  refine ⟨⟨rfl, rfl⟩, ⟨rfl, rfl⟩, fun l => rfl, fun e => rfl, rfl, rfl, fun v => rfl⟩

/-- C6: invoking `_state_checkbox` with the checkbox already at the requested
state performs no DOM click, still reports success (a success log at the
requested level, returning the requested state), leaves the page unchanged,
and therefore calling it twice with the same value equals calling it once. -/
theorem state_checkbox_idem (p : CheckboxPage) (v : Bool) (lvl : Nat)
    (hspan : p.spanPresent = true) (hstate : p.checked = v) :
    (state_checkbox p (some v) lvl).clicked = false ∧
    (state_checkbox p (some v) lvl).result = some v ∧
    (state_checkbox p (some v) lvl).logs = [⟨lvl, .checkboxSuccess⟩] ∧
    (state_checkbox p (some v) lvl).page = p ∧
    state_checkbox (state_checkbox p (some v) lvl).page (some v) lvl =
      state_checkbox p (some v) lvl := by
  subst hstate
  simp [state_checkbox, hspan]

/-- Witness for C6: a concrete page whose checkbox is already checked. -/
theorem state_checkbox_idem_witness :
    (CheckboxPage.mk true true true not).spanPresent = true ∧
    (CheckboxPage.mk true true true not).checked = true ∧
    (state_checkbox (CheckboxPage.mk true true true not) (some true) 20).clicked = false ∧
    (state_checkbox (CheckboxPage.mk true true true not) (some true) 20).result = some true :=
  ⟨rfl, rfl, (state_checkbox_idem (CheckboxPage.mk true true true not) true 20 rfl rfl).1,
    (state_checkbox_idem (CheckboxPage.mk true true true not) true 20 rfl rfl).2.1⟩

/-- The nested `get_active_bonus_key` never emits the activation-success
message: its only log templates are the wait timeout and the unidentified-key
error. -/
theorem getActiveBonusKey_no_activated (keys : List Int) (span : Option Int) :
    ∀ r ∈ (getActiveBonusKey keys span).2, r.msg ≠ LogMsg.bonusActivated := by
  cases span with
  | none => simp [getActiveBonusKey]
  | some k =>
    by_cases hm : k ∈ keys
    · simp [getActiveBonusKey, hm]
    · simp [getActiveBonusKey, hm]

/-- C3: in `_active_bonus` the redeem click fires only when the requested key
differs from the currently active key (specifically, when nothing is active)
and the redemption cost plus (when captcha checking is enabled) the per-play
cost does not exceed the reward-point balance; the activation-success message
is logged only when the post-click re-read returns the requested key; and an
active bonus whose scraped key is not in the scraped key table yields the
distinct unknown marker `none` — not an exception and not `some 0`. -/
theorem active_bonus_spec (p : BonusPage) (value : Int) (lvl : Nat)
    (_hval : value ∈ p.bonusKeys ∨ value = 0) :
    ((active_bonus p value lvl).clicked = true →
      (getActiveBonusKey p.bonusKeys p.activeSpan).1 ≠ some value ∧
      ∃ cost, p.bonusCosts[p.bonusKeys.indexOf value]? = some cost ∧
        cost + (if p.checkForCaptcha then p.freePlayCost else 0) ≤ p.balanceRP) ∧
    ((∃ r ∈ (active_bonus p value lvl).logs, r.msg = LogMsg.bonusActivated) →
      (active_bonus p value lvl).clicked = true ∧
      (getActiveBonusKey p.bonusKeys p.activeSpanAfterClick).1 = some value) ∧
    (∀ k : Int, p.bonusKeys ≠ [] → p.activeSpan = some k → p.bonusKeys.contains k = false →
      (active_bonus p value lvl).result = none) := by
  by_cases hk : p.bonusKeys = []
  · refine ⟨fun h => ?_, fun h => ?_, fun k hne _ _ => absurd hk hne⟩
    · simp [active_bonus, hk] at h
    · simp [active_bonus, hk] at h
  · by_cases hcond : (getActiveBonusKey p.bonusKeys p.activeSpan).1 = some 0 ∧ value ≠ 0
    · rcases hc : p.bonusCosts[p.bonusKeys.indexOf value]? with _ | cost
      · have ho : active_bonus p value lvl =
            ⟨some 0, false, (getActiveBonusKey p.bonusKeys p.activeSpan).2⟩ := by
          simp [active_bonus, hk, hcond, hc]
        refine ⟨fun h => ?_, fun h => ?_, fun k hne hspan hcont => ?_⟩
        · rw [ho] at h; exact absurd h (by simp)
        · rw [ho] at h
          obtain ⟨r, hr, hmsg⟩ := h
          exact absurd hmsg (getActiveBonusKey_no_activated _ _ r hr)
        · have hmem : k ∉ p.bonusKeys := by simpa using hcont
          exact absurd hcond.1 (by simp [getActiveBonusKey, hspan, hmem])
      · by_cases haff :
          cost + (if p.checkForCaptcha then p.freePlayCost else 0) ≤ p.balanceRP
        · by_cases hbtn : p.bonusKeys.indexOf value < p.buttonsCount
          · have ho : active_bonus p value lvl =
                ⟨(getActiveBonusKey p.bonusKeys p.activeSpanAfterClick).1, true,
                  (getActiveBonusKey p.bonusKeys p.activeSpan).2 ++
                    (getActiveBonusKey p.bonusKeys p.activeSpanAfterClick).2 ++
                    (if (getActiveBonusKey p.bonusKeys p.activeSpanAfterClick).1 = some value
                      then [⟨lvl, .bonusActivated⟩] else [])⟩ := by
              simp [active_bonus, hk, hcond, hc, haff, hbtn]
            refine ⟨fun _ => ?_, fun h => ?_, fun k hne hspan hcont => ?_⟩
            · refine ⟨?_, cost, rfl, haff⟩
              rw [hcond.1]
              intro hv
              exact hcond.2 (Option.some.inj hv).symm
            · rw [ho] at h
              obtain ⟨r, hr, hmsg⟩ := h
              simp only [List.mem_append] at hr
              rcases hr with (hr | hr) | hr
              · exact absurd hmsg (getActiveBonusKey_no_activated _ _ r hr)
              · exact absurd hmsg (getActiveBonusKey_no_activated _ _ r hr)
              · rw [ho]
                refine ⟨rfl, ?_⟩
                by_contra hpost
                rw [if_neg hpost] at hr
                exact absurd hr (by simp)
            · have hmem : k ∉ p.bonusKeys := by simpa using hcont
              exact absurd hcond.1 (by simp [getActiveBonusKey, hspan, hmem])
          · have ho : active_bonus p value lvl =
                ⟨some 0, false, (getActiveBonusKey p.bonusKeys p.activeSpan).2⟩ := by
              simp [active_bonus, hk, hcond, hc, haff, hbtn]
            refine ⟨fun h => ?_, fun h => ?_, fun k hne hspan hcont => ?_⟩
            · rw [ho] at h; exact absurd h (by simp)
            · rw [ho] at h
              obtain ⟨r, hr, hmsg⟩ := h
              exact absurd hmsg (getActiveBonusKey_no_activated _ _ r hr)
            · have hmem : k ∉ p.bonusKeys := by simpa using hcont
              exact absurd hcond.1 (by simp [getActiveBonusKey, hspan, hmem])
        · have ho : active_bonus p value lvl =
              ⟨some 0, false, (getActiveBonusKey p.bonusKeys p.activeSpan).2⟩ := by
            simp [active_bonus, hk, hcond, hc, haff]
          refine ⟨fun h => ?_, fun h => ?_, fun k hne hspan hcont => ?_⟩
          · rw [ho] at h; exact absurd h (by simp)
          · rw [ho] at h
            obtain ⟨r, hr, hmsg⟩ := h
            exact absurd hmsg (getActiveBonusKey_no_activated _ _ r hr)
          · have hmem : k ∉ p.bonusKeys := by simpa using hcont
            exact absurd hcond.1 (by simp [getActiveBonusKey, hspan, hmem])
    · have ho : active_bonus p value lvl =
          ⟨(getActiveBonusKey p.bonusKeys p.activeSpan).1, false,
            (getActiveBonusKey p.bonusKeys p.activeSpan).2⟩ := by
        simp [active_bonus, hk, hcond]
      refine ⟨fun h => ?_, fun h => ?_, fun k hne hspan hcont => ?_⟩
      · rw [ho] at h; exact absurd h (by simp)
      · rw [ho] at h
        obtain ⟨r, hr, hmsg⟩ := h
        exact absurd hmsg (getActiveBonusKey_no_activated _ _ r hr)
      · have hmem : k ∉ p.bonusKeys := by simpa using hcont
        rw [ho]
        simp [getActiveBonusKey, hspan, hmem]

/-- Witness for C3: on `sampleBonusPage` the requested key 50 is valid, the
click fires, and the theorem yields that nothing was active beforehand and
the cost 10 plus play cost 1 fits in the balance 100. -/
theorem active_bonus_spec_witness :
    ((50 : Int) ∈ sampleBonusPage.bonusKeys ∨ (50 : Int) = 0) ∧
    ((getActiveBonusKey sampleBonusPage.bonusKeys sampleBonusPage.activeSpan).1 ≠ some 50 ∧
      ∃ cost, sampleBonusPage.bonusCosts[sampleBonusPage.bonusKeys.indexOf 50]? = some cost ∧
        cost + (if sampleBonusPage.checkForCaptcha then sampleBonusPage.freePlayCost else 0) ≤
          sampleBonusPage.balanceRP) :=
  ⟨by decide, (active_bonus_spec sampleBonusPage 50 20 (by decide)).1 (by decide)⟩

/-- Counterexample for C5: when the timer section is absent, the element-wait
primitive inside `free_play_countdown` runs at its default log level 40, so a
level-40 (error-severity) record IS emitted, contradicting the claim that the
absent-timer path produces no error log. -/
theorem free_play_countdown_counterexample :
    (free_play_countdown ⟨false, false, []⟩).1 = 0 ∧
    (free_play_countdown ⟨false, false, []⟩).2 = [⟨40, .waitTimeout⟩] ∧
    ∃ r ∈ (free_play_countdown ⟨false, false, []⟩).2, 40 ≤ r.level := by
  refine ⟨rfl, rfl, ⟨40, .waitTimeout⟩, by simp [free_play_countdown]⟩

/-- C5 (amended): `free_play_countdown` returns `minutes*60 + seconds` for a
two-part display; it returns 0 with a level-40 wait-timeout record when the
timer section is absent, 0 with only a level-10 (debug) record when the
display has no parts, 0 with a logged error when the reference goes stale
mid-read, and 0 with a logged error when the display has exactly one part;
it never raises. -/
theorem free_play_countdown_amended (p : CountdownPage) :
    (p.timerPresent = false → free_play_countdown p = (0, [⟨40, .waitTimeout⟩])) ∧
    (p.timerPresent = true → p.spanValues = [] → free_play_countdown p = (0, [⟨10, .waitTimeout⟩])) ∧
    (p.timerPresent = true → p.spanValues ≠ [] → p.staleDuringRead = true →
      free_play_countdown p = (0, [⟨40, .countdownStale⟩])) ∧
    (∀ m s : Int, ∀ rest : List Int, p.timerPresent = true → p.staleDuringRead = false →
      p.spanValues = m :: s :: rest → free_play_countdown p = (m * 60 + s, [])) ∧
    (∀ m : Int, p.timerPresent = true → p.staleDuringRead = false → p.spanValues = [m] →
      free_play_countdown p = (0, [⟨40, .countdownTooFew⟩])) := by
  refine ⟨fun h1 => ?_, fun h1 h2 => ?_, fun h1 h2 h3 => ?_,
    fun m s rest h1 h2 h3 => ?_, fun m h1 h2 h3 => ?_⟩
  · simp [free_play_countdown, h1]
  · simp [free_play_countdown, h1, h2]
  · simp [free_play_countdown, h1, h2, h3]
  · simp [free_play_countdown, h1, h2, h3]
  · simp [free_play_countdown, h1, h2, h3]

/-- Witness for C5 (amended): a present timer reading minutes=2, seconds=5
yields 125 whole seconds with no log. -/
theorem free_play_countdown_amended_witness :
    free_play_countdown ⟨true, false, [2, 5]⟩ = (125, []) := by
  simpa using (free_play_countdown_amended ⟨true, false, [2, 5]⟩).2.2.2.1 2 5 [] rfl rfl rfl

/-- The accumulator form of the `activate_bonuses` loop equals the
flag-carrying form: the flag is `all(result.values())` of the accumulator. -/
theorem activateBonusesAux_eq_go (env : BonusEnv) :
    ∀ (l : List (String × Int)) (acc : List BonusEntry),
      activateBonusesAux env l acc =
        acc ++ activateBonusesGo env (acc.all fun e => truthy e.res) l := by
  intro l
  induction l with
  | nil => intro acc; simp [activateBonusesAux, activateBonusesGo]
  | cons kv rest ih =>
    intro acc
    obtain ⟨k, v⟩ := kv
    rw [show activateBonusesAux env ((k, v) :: rest) acc =
        activateBonusesAux env rest
          (acc ++ [⟨k, if acc.all (fun e => truthy e.res) then env.afterSet k v
                       else env.noSet k, acc.all (fun e => truthy e.res)⟩]) from rfl]
    rw [ih]
    simp [activateBonusesGo, List.all_append]

/-- In the flag-carrying loop, an emitted entry's setter was invoked exactly
when the incoming flag holds and every earlier emitted entry's recorded
result is truthy. -/
theorem activateBonusesGo_invoked (env : BonusEnv) :
    ∀ (l : List (String × Int)) (ok : Bool) (i : Nat) (e : BonusEntry),
      (activateBonusesGo env ok l)[i]? = some e →
      (e.invoked = true ↔
        ok = true ∧ ∀ (j : Nat) (e2 : BonusEntry), j < i →
          (activateBonusesGo env ok l)[j]? = some e2 → truthy e2.res = true) := by
  intro l
  induction l with
  | nil => intro ok i e h; simp [activateBonusesGo] at h
  | cons kv rest ih =>
    intro ok i e h
    obtain ⟨k, v⟩ := kv
    have hL : activateBonusesGo env ok ((k, v) :: rest) =
        ⟨k, if ok then env.afterSet k v else env.noSet k, ok⟩ ::
          activateBonusesGo env
            (ok && truthy (if ok then env.afterSet k v else env.noSet k)) rest := rfl
    rw [hL] at h ⊢
    match i with
    | 0 =>
      have he : e = ⟨k, if ok then env.afterSet k v else env.noSet k, ok⟩ := by
        simpa [eq_comm] using h
      subst he
      simp
    | Nat.succ i =>
      have h2 : (activateBonusesGo env
          (ok && truthy (if ok then env.afterSet k v else env.noSet k)) rest)[i]? = some e := by
        simpa using h
      have ihr := ih _ i e h2
      constructor
      · intro hin
        obtain ⟨hok, hC⟩ := ihr.mp hin
        rw [Bool.and_eq_true] at hok
        refine ⟨hok.1, ?_⟩
        intro j e2 hj hje
        match j with
        | 0 =>
          have he2 : e2 = ⟨k, if ok then env.afterSet k v else env.noSet k, ok⟩ := by
            simpa [eq_comm] using hje
          rw [he2]
          exact hok.2
        | Nat.succ j =>
          exact hC j e2 (by omega) (by simpa using hje)
      · intro hall
        apply ihr.mpr
        refine ⟨?_, ?_⟩
        · have h0 : truthy (if ok then env.afterSet k v else env.noSet k) = true :=
            hall.2 0 ⟨k, if ok then env.afterSet k v else env.noSet k, ok⟩
              (by omega) (by simp)
          rw [Bool.and_eq_true]
          exact ⟨hall.1, h0⟩
        · intro j e2 hj hje
          exact hall.2 (j + 1) e2 (by omega) (by simpa using hje)

/-- C2: in `activate_bonuses`, processed in insertion order, the activation
setter for a key runs exactly when the recorded results of all earlier keys
in the same call are truthy; in particular for the request
btc-then-lt-then-wof in which btc fails to activate (and no category has a
pre-existing active bonus), lt and wof are never attempted and the returned
mapping records btc's actual failed state (`0`) together with the falsy
nothing-active value for the entries after the failure. -/
theorem activate_bonuses_spec :
    (∀ (env : BonusEnv) (l : List (String × Int)) (i : Nat) (e : BonusEntry),
      (activate_bonuses env l)[i]? = some e →
      (e.invoked = true ↔ ∀ (j : Nat) (e2 : BonusEntry), j < i →
        (activate_bonuses env l)[j]? = some e2 → truthy e2.res = true)) ∧
    activate_bonuses allFailEnv demoBonusRequest =
      [⟨"btc", some 0, true⟩, ⟨"lt", some 0, false⟩, ⟨"wof", some 0, false⟩] := by
  constructor
  · intro env l i e h
    have hg : activate_bonuses env l = activateBonusesGo env true l := by
      rw [activate_bonuses, activateBonusesAux_eq_go]
      simp
    rw [hg] at h ⊢
    simpa using activateBonusesGo_invoked env l true i e h
  · rfl

/-- Witness for C2: in the concrete failing run, the second entry (lt) was
not attempted, as the theorem's characterization yields at index 1. -/
theorem activate_bonuses_spec_witness :
    ((activate_bonuses allFailEnv demoBonusRequest)[1]? = some ⟨"lt", some 0, false⟩) ∧
    ((BonusEntry.mk "lt" (some 0) false).invoked = true ↔
      ∀ (j : Nat) (e2 : BonusEntry), j < 1 →
        (activate_bonuses allFailEnv demoBonusRequest)[j]? = some e2 →
        truthy e2.res = true) :=
  ⟨rfl, activate_bonuses_spec.1 allFailEnv demoBonusRequest 1 ⟨"lt", some 0, false⟩ rfl⟩

/-- Counterexample for C9: the Chrome updater performs the
download+unpack+permission-fix when the installed driver (2.0.0.0) is
NEWER than the latest published release (1.0.0.0) — i.e. not outdated —
because its decision is plain string inequality, refuting "performs the
update exactly when the installed driver version is outdated". -/
theorem driver_update_counterexample :
    chromeUpdate downgradeEnv "2.0.0.0" = some ⟨true, true⟩ ∧
    specOutdated "2.0.0.0" "1.0.0.0" = false := by
  constructor
  · rfl
  · rfl

/-- C9 (amended): given a nonempty URL and a 200 response, the Firefox
updater performs the download+unpack+permission-fix exactly when the latest
published release string is NOT `<=` the installed version string in plain
string order (and reports success with no update needed when it is), while
the Chrome updater performs it exactly when the latest release string
differs from the installed version string (and reports success with no
update needed when they are equal); neither compares versions numerically. -/
theorem driver_update_amended :
    (∀ (env : DriverUpdateEnv) (installed : String), env.url ≠ "" → env.responseOk = true →
      (((firefoxUpdate env installed).attempted = true ↔
          pyStrLe (pyLstripChars env.latestRaw ['v', '.']) installed = false) ∧
        (pyStrLe (pyLstripChars env.latestRaw ['v', '.']) installed = true →
          firefoxUpdate env installed = ⟨true, false⟩))) ∧
    (∀ (env : DriverUpdateEnv) (installed : String) (r : UpdResult), env.url ≠ "" →
      env.responseOk = true → chromeUpdate env installed = some r →
      ((r.attempted = true ↔ pyLstripChars env.latestRaw ['v', '.'] ≠ installed) ∧
        (pyLstripChars env.latestRaw ['v', '.'] = installed → r = ⟨true, false⟩))) := by
  constructor
  · intro env installed hu hr
    have hfu : firefoxUpdate env installed =
        (if pyStrLe (pyLstripChars env.latestRaw ['v', '.']) installed then ⟨true, false⟩
         else if !env.downloadUnpackOk then ⟨false, true⟩
         else if pyStrLt env.permsResult "755" then ⟨false, true⟩
         else ⟨true, true⟩) := by
      simp [firefoxUpdate, hu, hr]
    rw [hfu]
    cases hle : pyStrLe (pyLstripChars env.latestRaw ['v', '.']) installed with
    | true => simp [hle]
    | false =>
      refine ⟨?_, fun h => by simp at h⟩
      rw [if_neg (by simp)]
      split_ifs <;> simp
  · intro env installed r hu hr hc
    have hcu : chromeUpdate env installed =
        (if pyLstripChars env.latestRaw ['v', '.'] = installed then some ⟨true, false⟩
         else if !env.downloadUnpackOk then some ⟨false, true⟩
         else if !env.licenseRemoveOk then none
         else if pyStrLt env.permsResult "755" then some ⟨false, true⟩
         else some ⟨true, true⟩) := by
      simp [chromeUpdate, hu, hr]
    rw [hcu] at hc
    by_cases heq : pyLstripChars env.latestRaw ['v', '.'] = installed
    · rw [if_pos heq] at hc
      have hre : r = ⟨true, false⟩ := (Option.some.inj hc).symm
      subst hre
      simp [heq]
    · rw [if_neg heq] at hc
      cases hdu : env.downloadUnpackOk with
      | false =>
        rw [hdu] at hc
        have hre : r = ⟨false, true⟩ := (Option.some.inj hc).symm
        subst hre; simp [heq]
      | true =>
        rw [hdu] at hc
        cases hlr : env.licenseRemoveOk with
        | false =>
          rw [hlr] at hc
          exact absurd hc (by simp)
        | true =>
          rw [hlr] at hc
          cases hperm : pyStrLt env.permsResult "755" with
          | true =>
            rw [hperm] at hc
            have hre : r = ⟨false, true⟩ := (Option.some.inj hc).symm
            subst hre; simp [heq]
          | false =>
            rw [hperm] at hc
            have hre : r = ⟨true, true⟩ := (Option.some.inj hc).symm
            subst hre; simp [heq]

/-- Witness for C9 (amended): on the downgrade environment the Chrome
updater's update attempt is characterized by string inequality. -/
theorem driver_update_amended_witness :
    downgradeEnv.url ≠ "" ∧ downgradeEnv.responseOk = true ∧
    ((UpdResult.mk true true).attempted = true ↔
      pyLstripChars downgradeEnv.latestRaw ['v', '.'] ≠ "2.0.0.0") :=
  ⟨by decide, rfl,
    (driver_update_amended.2 downgradeEnv "2.0.0.0" ⟨true, true⟩ (by decide) rfl rfl).1⟩

/-- C10: the stored credential fields change only at authentication boundary
successes: `sign_in` assigns them the supplied values only when the
post-submit authenticated marker is confirmed and leaves them unchanged on
every failing path; `sign_out` resets both to the empty string only when the
post-click unauthenticated marker is confirmed and leaves them unchanged on
every failing path; the only other state-mutating operations of the class
(the captcha-check and timeout setters) preserve them. -/
theorem credentials_frame :
    (∀ (st : Creds) (env : SignInEnv) (a pw t : String),
      ((sign_in st env a pw t).1 = true →
        (sign_in st env a pw t).2 = ⟨pw, t⟩ ∧ env.postClickAuth = true) ∧
      ((sign_in st env a pw t).1 = false → (sign_in st env a pw t).2 = st)) ∧
    (∀ (st : Creds) (env : SignOutEnv),
      ((sign_out st env).1 = true →
        (sign_out st env).2 = ⟨"", ""⟩ ∧ env.postClickUnauth = true) ∧
      ((sign_out st env).1 = false → (sign_out st env).2 = st)) ∧
    (∀ (fs : FaucetState) (v : Bool), (setCheckForCaptcha fs v).creds = fs.creds) ∧
    (∀ (fs : FaucetState) (v : Int), (setTimeoutElemWait fs v).creds = fs.creds) ∧
    (∀ (fs : FaucetState) (v : Int), (setTimeoutPageLoad fs v).creds = fs.creds) := by
  refine ⟨fun st env a pw t => ?_, fun st env => ?_,
    fun fs v => rfl, fun fs v => rfl, fun fs v => rfl⟩
  · unfold sign_in
    split_ifs <;> simp_all
  · unfold sign_out
    split_ifs <;> simp_all

/-- Witness for C10: a fully successful `sign_in` overwrites the stored
credentials with the supplied password and TOTP secret. -/
theorem credentials_frame_witness :
    (sign_in ⟨"old", "olds"⟩ ⟨true, true, true, true, true, true⟩ "a" "p" "t").1 = true ∧
    (sign_in ⟨"old", "olds"⟩ ⟨true, true, true, true, true, true⟩ "a" "p" "t").2 = ⟨"p", "t"⟩ :=
  ⟨by decide,
    ((credentials_frame.1 ⟨"old", "olds"⟩ ⟨true, true, true, true, true, true⟩ "a" "p" "t").1
      (by decide)).1⟩

/-- A terminated `scenarioMain` run always ends in the terminal state. -/
theorem scenarioMain_eq_terminal (fuel : Nat) (env : ScenEnv) (r : ScenResult)
    (h : scenarioMain fuel env = some r) : r = scenarioTerminal env := by
  unfold scenarioMain at h
  cases hfp : freePlayLoopAux env.roundPlayed env.freePlayNum fuel 1 with
  | none => rw [hfp] at h; exact absurd h (by simp)
  | some u => rw [hfp] at h; exact (Option.some.inj h).symm

/-- Properties of the terminal state: it reaches the terminal, quits the
session, and its exit status is 0 exactly when the sign-out succeeded. -/
theorem scenarioTerminal_props (env : ScenEnv) :
    (scenarioTerminal env).reachedTerminal = true ∧
    (scenarioTerminal env).quitCalled = true ∧
    ((scenarioTerminal env).exit = 0 ↔ (sign_out ⟨"", ""⟩ env.signOutEnv).1 = true) ∧
    ((scenarioTerminal env).exit = 0 ∨ (scenarioTerminal env).exit = 1) := by
  cases hso : (sign_out ⟨"", ""⟩ env.signOutEnv).1 with
  | false => simp [scenarioTerminal, hso]
  | true => simp [scenarioTerminal, hso]

/-- A terminated post-setup run either reaches the terminal state or is one
of the quit-then-return-1 failure exits. -/
theorem scenarioAfterSetup_cases (fuel : Nat) (env : ScenEnv) (r : ScenResult)
    (h : scenarioAfterSetup fuel env = some r) :
    r = scenarioTerminal env ∨ r = ⟨1, true, false, false⟩ := by
  unfold scenarioAfterSetup at h
  by_cases hq : env.quickStart = true
  · rw [if_pos hq] at h
    by_cases hqa : (env.qsAvailable && env.qsAuthenticated) = true
    · rw [if_pos hqa] at h
      exact Or.inl (scenarioMain_eq_terminal fuel env r h)
    · rw [if_neg hqa] at h
      exact Or.inr (Option.some.inj h).symm
  · rw [if_neg hq] at h
    cases hol : openLoopAux env.openOk env.onUnavailableAttempts fuel 1 with
    | none => rw [hol] at h; exact absurd h (by simp)
    | some b =>
      rw [hol] at h
      cases b with
      | false => exact Or.inr (Option.some.inj h).symm
      | true =>
        by_cases hsi :
          (sign_in ⟨"", ""⟩ env.signInEnv env.address env.passwordArg env.totpArg).1 = true
        · rw [if_pos hsi] at h
          exact Or.inl (scenarioMain_eq_terminal fuel env r h)
        · rw [if_neg hsi] at h
          exact Or.inr (Option.some.inj h).symm

/-- C4: on every terminated run, the scenario's exit status is 0 if and only
if the run reached the terminal state and the terminal sign-out succeeded;
every setup or sign-in failure (a run not reaching the terminal) yields exit
status 1; every path that reaches the terminal state executes the session
quit; and the terminal sign-out succeeds exactly when the user was
authenticated at the attempt and the post-click re-read confirmed the user
unauthenticated. -/
theorem scenario_exit_spec :
    (∀ (fuel : Nat) (env : ScenEnv) (r : ScenResult), scenario fuel env = some r →
      ((r.exit = 0 ↔ r.reachedTerminal = true ∧ (sign_out ⟨"", ""⟩ env.signOutEnv).1 = true) ∧
       (r.reachedTerminal = true → r.quitCalled = true) ∧
       (r.reachedTerminal = false → r.exit = 1))) ∧
    (∀ (st : Creds) (env2 : SignOutEnv),
      (sign_out st env2).1 = true ↔
        env2.authdFound = true ∧ env2.postClickUnauth = true) := by
  constructor
  · intro fuel env r h
    unfold scenario at h
    split_ifs at h with h1 h2 h3 h4 h5
    · have hre : r = ⟨1, false, false, false⟩ := (Option.some.inj h).symm
      subst hre; simp
    · have hre : r = ⟨1, false, false, false⟩ := (Option.some.inj h).symm
      subst hre; simp
    · have hre : r = ⟨1, false, false, false⟩ := (Option.some.inj h).symm
      subst hre; simp
    · have hre : r = ⟨1, false, false, false⟩ := (Option.some.inj h).symm
      subst hre; simp
    · have hre : r = ⟨1, false, false, false⟩ := (Option.some.inj h).symm
      subst hre; simp
    · rcases scenarioAfterSetup_cases fuel env r h with hr | hr
      · subst hr
        obtain ⟨ht, hq, hiff, _⟩ := scenarioTerminal_props env
        refine ⟨?_, fun _ => hq, fun hf => ?_⟩
        · simp [hiff, ht]
        · rw [ht] at hf
          exact absurd hf (by simp)
      · subst hr; simp
  · intro st env2
    cases ha : env2.authdFound with
    | false => simp [sign_out, ha]
    | true =>
      cases hp : env2.postClickUnauth with
      | false => simp [sign_out, ha, hp]
      | true => simp [sign_out, ha, hp]

/-- Witness for C4: the fully successful quick-start run terminates with
exit status 0, the terminal reached, the quit executed and the sign-out
confirmed. -/
theorem scenario_exit_spec_witness :
    scenario 3 happyScenEnv = some ⟨0, true, true, true⟩ ∧
    ((ScenResult.mk 0 true true true).exit = 0 ↔
      (ScenResult.mk 0 true true true).reachedTerminal = true ∧
      (sign_out ⟨"", ""⟩ happyScenEnv.signOutEnv).1 = true) :=
  ⟨rfl, (scenario_exit_spec.1 3 happyScenEnv ⟨0, true, true, true⟩ rfl).1⟩

end Faucet
